import Mathlib

/-!
Shallow embedding of the fluid-dynamics nowcasting engine
(`FluidDynamicsForecaster` in `src/src/uploaders/s3_uploader.py`).

Grids are total functions `Fin r → Fin c → ℚ`; the rationals stand for the
numpy float values (the claims under study are exact-arithmetic properties
of the formulas, not float-rounding properties).  The two genuinely
external numerical routines — the cv2 Lucas-Kanade tracker inside
`calculate_optical_flow` and the scipy Gaussian filter — are passed in as
parameters (`flow`, `est`), exactly as the surrounding Python treats them:
opaque calls that either produce data or raise.  The `try/except` blocks of
the Python are embedded with explicit error oracles (`err : Bool`,
`advErr evErr : Nat → Bool`): the flag says whether the wrapped external
computation raises, and the embedding then reproduces what each `except`
clause does (re-raise as a `ForecastError`, or soft-return the input).
-/

/-- A reflectivity grid: `r × c` rational intensity samples.  Embeds the
2-D numpy arrays of the forecaster (row index first, like `a[y, x]`). -/
abbrev Grid (r c : Nat) := Fin r → Fin c → ℚ

/-- Errors raised by the engine.  In the Python source every site raises
`ForecastError` with a distinct message; the spec's error taxonomy names
these sites, so each raise site is one constructor here:
`motionEstimation` = "Optical flow calculation failed" (line 55),
`advection` = "Field advection failed" (line 81),
`insufficientFrames` = "Need at least 2 frames to calculate velocity"
(line 120), `noValidPairs` = "No valid frame pairs for velocity
calculation" (line 143), `forecastInsufficient` = "Need at least 3 frames
for forecasting" (line 154), and `forecastFailed e` = the outer
"Forecast generation failed: {e}" re-raise wrapping cause `e` (line 199). -/
inductive RadarError where
  | motionEstimation : RadarError
  | advection : RadarError
  | insufficientFrames : RadarError
  | noValidPairs : RadarError
  | forecastInsufficient : RadarError
  | forecastFailed : RadarError → RadarError
  deriving DecidableEq, Repr

/-- The spec groups the two "too few usable inputs" raise sites of the
Velocity Aggregator under the one name `InsufficientDataError`. -/
def RadarError.isInsufficientData : RadarError → Bool
  | .insufficientFrames => true
  | .noValidPairs => true
  | _ => false

/-- `models.RadarFrame`, restricted to the fields the engine reads:
timestamp (whole minutes, embedding the `datetime` instant) and the data
grid.  Equal shape across a buffer is enforced by the type indices. -/
structure RadarFrame (r c : Nat) where
  timestamp : ℤ
  data : Grid r c

/-- `models.ForecastResult`: timestamp (minutes), the uint8-cast data grid
(the Python `astype(np.uint8)` truncates the nonnegative in-range floats,
embedded as the integer floor of each cell), confidence, method tag. -/
structure ForecastResult (r c : Nat) where
  timestamp : ℤ
  data : Fin r → Fin c → ℤ
  confidence : ℚ
  method : String

instance {r c : Nat} : DecidableEq (RadarFrame r c) := fun a b =>
  decidable_of_iff (a.timestamp = b.timestamp ∧ a.data = b.data)
    (by cases a; cases b; simp)

instance {r c : Nat} : DecidableEq (ForecastResult r c) := fun a b =>
  decidable_of_iff
    (a.timestamp = b.timestamp ∧ a.data = b.data ∧ a.confidence = b.confidence ∧
      a.method = b.method)
    (by cases a; cases b; simp)

instance {ε α : Type} [DecidableEq ε] [DecidableEq α] : DecidableEq (Except ε α) :=
  fun a b =>
  match a, b with
  | .error e, .error f => decidable_of_iff (e = f) (by simp)
  | .ok x, .ok y => decidable_of_iff (x = y) (by simp)
  | .error _, .ok _ => isFalse (by simp)
  | .ok _, .error _ => isFalse (by simp)

/-- `np.clip` on one value: `minimum(maximum(x, lo), hi)`. -/
def clipQ (x lo hi : ℚ) : ℚ := min (max x lo) hi

/-- Read a grid cell at integer coordinates, `0` outside the grid — the
`BORDER_CONSTANT` convention of the `cv2.remap` call in `advect_field`. -/
def getQ {r c : Nat} (f : Grid r c) (y x : ℤ) : ℚ :=
  if h : 0 ≤ y ∧ y < (r : ℤ) ∧ 0 ≤ x ∧ x < (c : ℤ) then
    f ⟨y.toNat, by omega⟩ ⟨x.toNat, by omega⟩
  else 0

/-- Bilinear interpolation of a grid at fractional coordinates `(x, y)` —
the `INTER_LINEAR` resampling performed by `cv2.remap` in `advect_field`. -/
def bilinear {r c : Nat} (f : Grid r c) (x y : ℚ) : ℚ :=
  (1 - (x - ⌊x⌋)) * (1 - (y - ⌊y⌋)) * getQ f ⌊y⌋ ⌊x⌋ +
    (x - ⌊x⌋) * (1 - (y - ⌊y⌋)) * getQ f ⌊y⌋ (⌊x⌋ + 1) +
    (1 - (x - ⌊x⌋)) * (y - ⌊y⌋) * getQ f (⌊y⌋ + 1) ⌊x⌋ +
    (x - ⌊x⌋) * (y - ⌊y⌋) * getQ f (⌊y⌋ + 1) (⌊x⌋ + 1)

/-- The semi-Lagrangian arithmetic inside `advect_field` (lines 61-75):
per output cell, step backward along the velocity (`x_back = x - u*dt`,
`y_back = y - v*dt`), clip into `[0, cols-1] × [0, rows-1]`, and resample
the input bilinearly at the clipped origin. -/
def advect_field_core {r c : Nat} (field u v : Grid r c) (dt : ℚ) : Grid r c :=
  fun i j =>
    bilinear field
      (clipQ (((j : ℕ) : ℚ) - u i j * dt) 0 ((c : ℚ) - 1))
      (clipQ (((i : ℕ) : ℚ) - v i j * dt) 0 ((r : ℚ) - 1))

/-- `advect_field` with its `try/except`: `err` abstracts an internal
failure of the wrapped cv2 call (e.g. non-finite velocities), which the
`except` clause re-raises as `ForecastError("Field advection failed")`;
otherwise the semi-Lagrangian arithmetic runs. -/
def advect_field {r c : Nat} (err : Bool) (field u v : Grid r c) (dt : ℚ) :
    Except RadarError (Grid r c) :=
  if err then .error .advection else .ok (advect_field_core field u v dt)

/-- Rates of the evolution model.  The source hard-codes
`growthRate = 0.05` and `decayRate = 0.15` (per hour) inline and computes
the global factor `exp(-decay_rate * dt / 3600)` with `decay_rate = 0.1`;
`exp` is transcendental, so that factor is carried here as the explicit
parameter `expFactor` (for `dt ≥ 0` the source's factor lies in `(0, 1]`).
The claims quantify over these parameters, subsuming the defaults. -/
structure EvolveParams where
  growthRate : ℚ
  decayRate : ℚ
  expFactor : ℚ
  deriving DecidableEq

/-- `apply_precipitation_decay`: multiply the whole field by the
exponential decay factor (see `EvolveParams.expFactor`). -/
def apply_precipitation_decay {r c : Nat} (field : Grid r c) (expFactor : ℚ) :
    Grid r c :=
  fun i j => field i j * expFactor

/-- `apply_growth_decay_model` with its `try/except`: if an internal error
occurs (`err`), the `except` clause returns the input field unchanged.
Otherwise: `growth_mask` and `decay_mask` are both evaluated on the INPUT
field (`field > 80 & field < 150`, `field > 180`); the masked cells of the
working copy are scaled in place (growth first, then decay — on the value
produced by the growth step); then `apply_precipitation_decay` multiplies
the whole current field; finally `np.clip(result, 0, 255)`. -/
def apply_growth_decay_model {r c : Nat} (err : Bool) (p : EvolveParams)
    (field : Grid r c) (dt : ℚ) : Grid r c :=
  if err then field
  else
    let result : Grid r c := fun i j =>
      let x := field i j
      let x1 := if 80 < x ∧ x < 150 then x * (1 + p.growthRate * dt / 3600) else x
      if 180 < x then x1 * (1 - p.decayRate * dt / 3600) else x1
    let decayed := apply_precipitation_decay result p.expFactor
    fun i j => clipQ (decayed i j) 0 255

/-- The anchor points of `calculate_optical_flow`:
`[(x, y) for y in range(0, rows, 10) for x in range(0, cols, 10)]` —
a regular grid with stride 10 in each axis, x fastest. -/
def anchors (rows cols : Nat) : List (Nat × Nat) :=
  (List.range ((rows + 9) / 10)).flatMap fun gy =>
    (List.range ((cols + 9) / 10)).map fun gx => (10 * gx, 10 * gy)

/-- Pointwise update of one grid cell (numpy item assignment). -/
def updateG {r c : Nat} (g : Grid r c) (i0 j0 : Nat) (val : ℚ) : Grid r c :=
  fun i j => if i.val = i0 ∧ j.val = j0 then val else g i j

/-- The write-back loop of `calculate_optical_flow` (lines 38-45): entry
`i` of `flow` is the tracked position `(x, y)` of anchor `i`; the loop
reconstructs the anchor cell as `divmod(i, cols // 10)` scaled by 10 and,
when that cell lies inside the grid, writes the displacement
`(x - orig_x, y - orig_y)` into `u`, `v` there. -/
def writeFlow {r c : Nat} : List (ℚ × ℚ) → Nat → Grid r c × Grid r c →
    Grid r c × Grid r c
  | [], _, uv => uv
  | (x, y) :: rest, i, (u, v) =>
    let oy := i / (c / 10) * 10
    let ox := i % (c / 10) * 10
    let uv' :=
      if oy < r ∧ ox < c then
        (updateG u oy ox (x - (ox : ℚ)), updateG v oy ox (y - (oy : ℚ)))
      else (u, v)
    writeFlow rest (i + 1) uv'

/-- `calculate_optical_flow` up to (and excluding) the Gaussian smoothing:
builds the `u`, `v` displacement grids from the tracker output `flow`
(`none` embeds cv2 returning `None`).  When `cols // 10 = 0` and the flow
list is non-empty, the Python `divmod` divides by zero on the first entry
and the `except` clause raises `ForecastError` (`motionEstimation`). -/
def flow_uv (r c : Nat) (flow : Option (List (ℚ × ℚ))) :
    Except RadarError (Grid r c × Grid r c) :=
  match flow with
  | none => .ok (fun _ _ => 0, fun _ _ => 0)
  | some l =>
    if c / 10 = 0 ∧ l ≠ [] then .error .motionEstimation
    else .ok (writeFlow l 0 (fun _ _ => 0, fun _ _ => 0))

/-- Accumulator loop of `calculate_average_velocity` (lines 122-138), one
state for `(u_sum, v_sum, valid_pairs)` — `none` embeds
`u_sum is None ∧ valid_pairs = 0`, which the code keeps in lockstep.  The
estimator `est` abstracts `calculate_optical_flow` (whose tracker output
comes from cv2); a raising pair is skipped (`except: continue`). -/
def avgVelLoop {r c : Nat}
    (est : RadarFrame r c → RadarFrame r c → Except RadarError (Grid r c × Grid r c)) :
    List (RadarFrame r c × RadarFrame r c) →
    Option (Grid r c × Grid r c × Nat) → Option (Grid r c × Grid r c × Nat)
  | [], acc => acc
  | pair :: rest, acc =>
    match est pair.1 pair.2 with
    | .error _ => avgVelLoop est rest acc
    | .ok (u, v) =>
      match acc with
      | none => avgVelLoop est rest (some (u, v, 1))
      | some (us, vs, k) =>
        avgVelLoop est rest
          (some (fun i j => us i j + u i j, fun i j => vs i j + v i j, k + 1))

/-- `calculate_average_velocity`: fewer than 2 frames raises the
"Need at least 2 frames" error; the loop runs over consecutive pairs; zero
successful pairs raises "No valid frame pairs"; otherwise the summed
fields are divided by the count of successful pairs. -/
def calculate_average_velocity {r c : Nat}
    (est : RadarFrame r c → RadarFrame r c → Except RadarError (Grid r c × Grid r c))
    (frames : List (RadarFrame r c)) :
    Except RadarError (Grid r c × Grid r c) :=
  if frames.length < 2 then .error .insufficientFrames
  else
    match avgVelLoop est (frames.zip frames.tail) none with
    | none => .error .noValidPairs
    | some (us, vs, k) =>
      .ok (fun i j => us i j / (k : ℚ), fun i j => vs i j / (k : ℚ))

/-- `config.RadarConfig.forecast_steps` default. -/
def forecast_steps : Nat := 6

/-- `config.RadarConfig.forecast_interval_minutes` default. -/
def forecast_interval_minutes : Nat := 10

/-- The per-step loop of `generate_forecast` (lines 170-192): advect the
working field (per-step advection failure abstracted by `advErr step`),
evolve it (internal-evolution failure abstracted by `evErr step`), record
a `ForecastResult` with timestamp `t0 + step * interval` minutes,
confidence `max(0.1, 1.0 - step * 0.15)`, the uint8 cast of the evolved
field, and method tag "fluid_dynamics"; the evolved field feeds the next
step.  `n` counts the remaining steps, `step` the current 1-based step. -/
def forecastLoop {r c : Nat} (uAvg vAvg : Grid r c) (p : EvolveParams)
    (dt : ℚ) (interval : ℤ) (advErr evErr : Nat → Bool) (t0 : ℤ) :
    Nat → Nat → Grid r c → Except RadarError (List (ForecastResult r c))
  | 0, _, _ => .ok []
  | n + 1, step, field =>
    match advect_field (advErr step) field uAvg vAvg dt with
    | .error e => .error e
    | .ok advected =>
      let evolved := apply_growth_decay_model (evErr step) p advected dt
      match forecastLoop uAvg vAvg p dt interval advErr evErr t0 n (step + 1) evolved with
      | .error e => .error e
      | .ok rest =>
        .ok ({ timestamp := t0 + (step : ℤ) * interval
               data := fun i j => ⌊evolved i j⌋
               confidence := max (1 / 10) (1 - (step : ℚ) * (3 / 20))
               method := "fluid_dynamics" } :: rest)

/-- `generate_forecast` (lines 149-201): fewer than 3 frames raises the
"Need at least 3 frames" error before the `try` block; inside the block
the window is the `min(10, len)` most recent frames, the aggregator runs
once, the working field and time are seeded from the most recent frame,
and the step loop runs with `dt = interval * 60` seconds; any error inside
the block is re-raised wrapped as `forecastFailed`.  The `getLast?` none
branch is unreachable (the window holds at least 3 frames). -/
def generate_forecast {r c : Nat}
    (est : RadarFrame r c → RadarFrame r c → Except RadarError (Grid r c × Grid r c))
    (advErr evErr : Nat → Bool) (p : EvolveParams) (steps interval : Nat)
    (frames : List (RadarFrame r c)) :
    Except RadarError (List (ForecastResult r c)) :=
  if frames.length < 3 then .error .forecastInsufficient
  else
    let recent := frames.drop (frames.length - min 10 frames.length)
    let inner : Except RadarError (List (ForecastResult r c)) :=
      match calculate_average_velocity est recent with
      | .error e => .error e
      | .ok (uAvg, vAvg) =>
        match recent.getLast? with
        | none => .error .insufficientFrames
        | some lastF =>
          forecastLoop uAvg vAvg p ((interval : ℚ) * 60) (interval : ℤ)
            advErr evErr lastF.timestamp steps 1 lastF.data
    inner.mapError RadarError.forecastFailed

/-- The per-pair velocity fields of exactly those pairs in `ps` whose
estimation succeeds, in order. -/
def successes {r c : Nat}
    (est : RadarFrame r c → RadarFrame r c → Except RadarError (Grid r c × Grid r c))
    (ps : List (RadarFrame r c × RadarFrame r c)) : List (Grid r c × Grid r c) :=
  ps.filterMap fun pair => (est pair.1 pair.2).toOption

/-- Spec-side reading of the Velocity Aggregator (§4.2): the per-pair
velocity fields of exactly those consecutive pairs whose estimation
succeeds. -/
def successfulPairs {r c : Nat}
    (est : RadarFrame r c → RadarFrame r c → Except RadarError (Grid r c × Grid r c))
    (frames : List (RadarFrame r c)) : List (Grid r c × Grid r c) :=
  successes est (frames.zip frames.tail)

/-- Pointwise sum of the `u` components of a list of velocity fields. -/
def sumU {r c : Nat} (l : List (Grid r c × Grid r c)) : Grid r c :=
  fun i j => (l.map fun g => g.1 i j).sum

/-- Pointwise sum of the `v` components of a list of velocity fields. -/
def sumV {r c : Nat} (l : List (Grid r c × Grid r c)) : Grid r c :=
  fun i j => (l.map fun g => g.2 i j).sum

/-- Spec-side mean velocity field: element-wise sums divided by the count
of contributing pairs. -/
def meanOf {r c : Nat} (l : List (Grid r c × Grid r c)) :
    Grid r c × Grid r c :=
  (fun i j => sumU l i j / (l.length : ℚ), fun i j => sumV l i j / (l.length : ℚ))

/-- Spec-side reading of the Evolution Model (§4.4 as the claim reads it):
three effects in strict sequence, the membership test of each effect
evaluated on the current field state produced by the previous effect,
then the final clamp. -/
def evolveSequentialSpec {r c : Nat} (p : EvolveParams) (field : Grid r c)
    (dt : ℚ) : Grid r c :=
  let s1 : Grid r c := fun i j =>
    if 80 < field i j ∧ field i j < 150 then
      field i j * (1 + p.growthRate * dt / 3600)
    else field i j
  let s2 : Grid r c := fun i j =>
    if 180 < s1 i j then s1 i j * (1 - p.decayRate * dt / 3600) else s1 i j
  let s3 := apply_precipitation_decay s2 p.expFactor
  fun i j => clipQ (s3 i j) 0 255

/-- The all-zero 1×1 grid, used as concrete witness data. -/
def zeroGrid : Grid 1 1 := fun _ _ => 0

/-- Concrete estimator that always succeeds with a zero velocity field. -/
def estZero : RadarFrame 1 1 → RadarFrame 1 1 → Except RadarError (Grid 1 1 × Grid 1 1) :=
  fun _ _ => .ok (zeroGrid, zeroGrid)

/-- Concrete buffer of `n` all-zero 1×1 frames at timestamps `0, 1, ...`. -/
def zeroFrames (n : Nat) : List (RadarFrame 1 1) :=
  (List.range n).map fun k => ⟨k, zeroGrid⟩

/-- Error oracle meaning "no internal error ever occurs". -/
def oracleFalse : Nat → Bool := fun _ => false

/-- Concrete evolution parameters: the source's default rates 0.05 and
0.15, with 1/8 standing in the range (0, 1) where exp(-0.1*dt/3600) lies
for positive dt. -/
def paramsW : EvolveParams := ⟨1 / 20, 3 / 20, 1 / 8⟩

/-- Concrete single-cell field at intensity 149 (inside the growth band). -/
def field149 : Grid 1 1 := fun _ _ => 149

/-- Concrete constant velocity fields used in the aggregator witness. -/
def gridTwo : Grid 1 1 := fun _ _ => 2

/-- Companion to `gridTwo` for the v component. -/
def gridFour : Grid 1 1 := fun _ _ => 4

/-- Concrete estimator that fails on the pair starting at timestamp 0 and
succeeds with `(gridTwo, gridFour)` on every other pair, exercising the
skip-and-continue path of the aggregator. -/
def estMixed : RadarFrame 1 1 → RadarFrame 1 1 → Except RadarError (Grid 1 1 × Grid 1 1) :=
  fun a _ => if a.timestamp = 0 then .error .motionEstimation else .ok (gridTwo, gridFour)

/-- Expected pre-smoothing u grid for the 1×15 optical-flow evaluation:
only anchor (0,0) receives its displacement; anchor (10,0) is lost. -/
def uFlow115 : Grid 1 15 := fun i j => if i.val = 0 ∧ j.val = 0 then 2 else 0

/-- Expected pre-smoothing v grid for the 1×15 optical-flow evaluation. -/
def vFlow115 : Grid 1 15 := fun i j => if i.val = 0 ∧ j.val = 0 then 3 else 0

/-- The forecast list produced on three zero frames (timestamps 0,1,2):
six zero-data results at 12,22,...,62 minutes with the linearly decaying
confidences. -/
def resultsZero3 : List (ForecastResult 1 1) :=
  [⟨12, fun _ _ => 0, 17 / 20, "fluid_dynamics"⟩,
   ⟨22, fun _ _ => 0, 7 / 10, "fluid_dynamics"⟩,
   ⟨32, fun _ _ => 0, 11 / 20, "fluid_dynamics"⟩,
   ⟨42, fun _ _ => 0, 2 / 5, "fluid_dynamics"⟩,
   ⟨52, fun _ _ => 0, 1 / 4, "fluid_dynamics"⟩,
   ⟨62, fun _ _ => 0, 1 / 10, "fluid_dynamics"⟩]

/-- The forecast list produced on ten zero frames (timestamps 0..9). -/
def resultsZero10 : List (ForecastResult 1 1) :=
  [⟨19, fun _ _ => 0, 17 / 20, "fluid_dynamics"⟩,
   ⟨29, fun _ _ => 0, 7 / 10, "fluid_dynamics"⟩,
   ⟨39, fun _ _ => 0, 11 / 20, "fluid_dynamics"⟩,
   ⟨49, fun _ _ => 0, 2 / 5, "fluid_dynamics"⟩,
   ⟨59, fun _ _ => 0, 1 / 4, "fluid_dynamics"⟩,
   ⟨69, fun _ _ => 0, 1 / 10, "fluid_dynamics"⟩]

/-- The first element of `resultsZero3`, used to instantiate witnesses. -/
def resZ3head : ForecastResult 1 1 := ⟨12, fun _ _ => 0, 17 / 20, "fluid_dynamics"⟩

unseal Rat.mul Rat.inv Rat.add Rat.sub

lemma getQ_coe {r c : Nat} (f : Grid r c) (i : Fin r) (j : Fin c) :
    getQ f ((i : ℕ) : ℤ) ((j : ℕ) : ℤ) = f i j := by
  unfold getQ
  rw [dif_pos ⟨by positivity, by exact_mod_cast i.isLt, by positivity,
    by exact_mod_cast j.isLt⟩]
  congr

lemma advect_core_zero {r c : Nat} (field : Grid r c) (dt : ℚ) :
    advect_field_core field (fun _ _ => 0) (fun _ _ => 0) dt = field := by
  funext i j
  have hj1 : ((j : ℕ) : ℚ) ≤ (c : ℚ) - 1 := by
    have h := Nat.succ_le_of_lt j.isLt
    have h2 : ((j : ℕ) : ℚ) + 1 ≤ (c : ℚ) := by exact_mod_cast h
    linarith
  have hi1 : ((i : ℕ) : ℚ) ≤ (r : ℚ) - 1 := by
    have h := Nat.succ_le_of_lt i.isLt
    have h2 : ((i : ℕ) : ℚ) + 1 ≤ (r : ℚ) := by exact_mod_cast h
    linarith
  have hclipj : clipQ (((j : ℕ) : ℚ) - 0 * dt) 0 ((c : ℚ) - 1) = ((j : ℕ) : ℚ) := by
    unfold clipQ
    rw [zero_mul, sub_zero, max_eq_left (by positivity), min_eq_left hj1]
  have hclipi : clipQ (((i : ℕ) : ℚ) - 0 * dt) 0 ((r : ℚ) - 1) = ((i : ℕ) : ℚ) := by
    unfold clipQ
    rw [zero_mul, sub_zero, max_eq_left (by positivity), min_eq_left hi1]
  show bilinear field (clipQ (((j : ℕ) : ℚ) - 0 * dt) 0 ((c : ℚ) - 1))
      (clipQ (((i : ℕ) : ℚ) - 0 * dt) 0 ((r : ℚ) - 1)) = field i j
  rw [hclipj, hclipi]
  unfold bilinear
  rw [Int.floor_natCast, Int.floor_natCast]
  push_cast
  simp only [sub_self, mul_zero, zero_mul, mul_one, one_mul,
    add_zero, zero_add, sub_zero]
  exact getQ_coe field i j

/-- Claim C8: advection with an everywhere-zero velocity field is the
identity — for every field and every dt, `advect_field(field, 0, 0, dt)`
returns the input unchanged (each backward origin is the cell's own
integer coordinate, and bilinear resampling reproduces the cell value). -/
theorem C8_zero_velocity_identity {r c : Nat} (field : Grid r c) (dt : ℚ) :
    advect_field false field (fun _ _ => 0) (fun _ _ => 0) dt = Except.ok field := by
  unfold advect_field
  rw [if_neg (by simp), advect_core_zero]

/-- Claim C7: the evolution model never raises — if an internal error
occurs during the growth/decay computation (error oracle true), the
pre-evolution input field is returned unchanged; in contrast the advector
raises `ForecastError("Field advection failed")` on an internal failure. -/
theorem C7_evolution_soft_fail {r c : Nat} (p : EvolveParams)
    (field u v : Grid r c) (dt : ℚ) :
    apply_growth_decay_model true p field dt = field ∧
    advect_field true field u v dt = Except.error RadarError.advection := by
  exact ⟨rfl, rfl⟩

/-- Claim C4: calling `generate_forecast` with fewer than 3 frames raises
the `ForecastError` "Need at least 3 frames" (and never does so with at
least 3 frames); calling `calculate_average_velocity` with fewer than 2
frames raises the aggregator's insufficient-data error "Need at least 2
frames" (and never does so with at least 2 frames) — the error the spec
calls `InsufficientDataError`. -/
theorem C4_minimum_frame_floors {r c : Nat}
    (est : RadarFrame r c → RadarFrame r c → Except RadarError (Grid r c × Grid r c))
    (advErr evErr : Nat → Bool) (p : EvolveParams) (steps interval : Nat)
    (frames frames2 : List (RadarFrame r c)) :
    (frames.length < 3 →
      generate_forecast est advErr evErr p steps interval frames =
        Except.error RadarError.forecastInsufficient) ∧
    (3 ≤ frames.length →
      generate_forecast est advErr evErr p steps interval frames ≠
        Except.error RadarError.forecastInsufficient) ∧
    (frames2.length < 2 →
      calculate_average_velocity est frames2 =
        Except.error RadarError.insufficientFrames) ∧
    (2 ≤ frames2.length →
      calculate_average_velocity est frames2 ≠
        Except.error RadarError.insufficientFrames) ∧
    RadarError.insufficientFrames.isInsufficientData = true := by
  refine ⟨?_, ?_, ?_, ?_, rfl⟩
  · intro h
    unfold generate_forecast
    rw [if_pos h]
  · intro h
    unfold generate_forecast
    rw [if_neg (by omega)]
    cases hcav : calculate_average_velocity est
        (frames.drop (frames.length - min 10 frames.length)) with
    | error e => simp [hcav, Except.mapError]
    | ok uv =>
      obtain ⟨uAvg, vAvg⟩ := uv
      cases hlast : (frames.drop (frames.length - min 10 frames.length)).getLast? with
      | none => simp [hcav, hlast, Except.mapError]
      | some lastF =>
        cases hloop : forecastLoop uAvg vAvg p ((interval : ℚ) * 60) (interval : ℤ)
            advErr evErr lastF.timestamp steps 1 lastF.data with
        | error e => simp [hcav, hlast, hloop, Except.mapError]
        | ok l => simp [hcav, hlast, hloop, Except.mapError]
  · intro h
    unfold calculate_average_velocity
    rw [if_pos h]
  · intro h
    unfold calculate_average_velocity
    rw [if_neg (by omega)]
    cases hloop : avgVelLoop est (frames2.zip frames2.tail) none with
    | none => simp
    | some s =>
      obtain ⟨us, vs, k⟩ := s
      simp

/-- Witness for C4 at concrete buffers of 1, 2 and 3 zero frames. -/
theorem C4_minimum_frame_floors_witness :
    generate_forecast estZero oracleFalse oracleFalse paramsW 6 10 (zeroFrames 2) =
      Except.error RadarError.forecastInsufficient ∧
    generate_forecast estZero oracleFalse oracleFalse paramsW 6 10 (zeroFrames 3) ≠
      Except.error RadarError.forecastInsufficient ∧
    calculate_average_velocity estZero (zeroFrames 1) =
      Except.error RadarError.insufficientFrames ∧
    calculate_average_velocity estZero (zeroFrames 3) ≠
      Except.error RadarError.insufficientFrames := by
  obtain ⟨h1, -, h3, -, -⟩ := C4_minimum_frame_floors estZero oracleFalse oracleFalse
    paramsW 6 10 (zeroFrames 2) (zeroFrames 1)
  obtain ⟨-, g2, -, g4, -⟩ := C4_minimum_frame_floors estZero oracleFalse oracleFalse
    paramsW 6 10 (zeroFrames 3) (zeroFrames 3)
  exact ⟨h1 (by decide), g2 (by decide), h3 (by decide), g4 (by decide)⟩

lemma clipQ_bounds (x lo hi : ℚ) (h : lo ≤ hi) :
    lo ≤ clipQ x lo hi ∧ clipQ x lo hi ≤ hi :=
  ⟨le_min (le_max_right _ _) h, min_le_right _ _⟩

lemma convex_term_bound (w q lo hi : ℚ) (hw : 0 ≤ w)
    (hq : w = 0 ∨ (lo ≤ q ∧ q ≤ hi)) :
    w * lo ≤ w * q ∧ w * q ≤ w * hi := by
  rcases hq with h | ⟨h1, h2⟩
  · subst h
    simp
  · exact ⟨mul_le_mul_of_nonneg_left h1 hw, mul_le_mul_of_nonneg_left h2 hw⟩

lemma bilinear_bounds {r c : Nat} (f : Grid r c) (lo hi : ℚ)
    (hf : ∀ i j, lo ≤ f i j ∧ f i j ≤ hi) (x y : ℚ)
    (hx0 : 0 ≤ x) (hx1 : x ≤ (c : ℚ) - 1) (hy0 : 0 ≤ y) (hy1 : y ≤ (r : ℚ) - 1) :
    lo ≤ bilinear f x y ∧ bilinear f x y ≤ hi := by
  unfold bilinear
  have hfxl : (0 : ℚ) ≤ x - (⌊x⌋ : ℚ) := sub_nonneg.mpr (Int.floor_le x)
  have hfxr : x - (⌊x⌋ : ℚ) < 1 := by
    have := Int.lt_floor_add_one x
    linarith
  have hfyl : (0 : ℚ) ≤ y - (⌊y⌋ : ℚ) := sub_nonneg.mpr (Int.floor_le y)
  have hfyr : y - (⌊y⌋ : ℚ) < 1 := by
    have := Int.lt_floor_add_one y
    linarith
  have hxlo : (0 : ℤ) ≤ ⌊x⌋ := Int.le_floor.mpr (by exact_mod_cast hx0)
  have hylo : (0 : ℤ) ≤ ⌊y⌋ := Int.le_floor.mpr (by exact_mod_cast hy0)
  have hxhiQ : (⌊x⌋ : ℚ) ≤ (c : ℚ) - 1 := le_trans (Int.floor_le x) hx1
  have hyhiQ : (⌊y⌋ : ℚ) ≤ (r : ℚ) - 1 := le_trans (Int.floor_le y) hy1
  have hxhi : ⌊x⌋ ≤ (c : ℤ) - 1 := by exact_mod_cast hxhiQ
  have hyhi : ⌊y⌋ ≤ (r : ℤ) - 1 := by exact_mod_cast hyhiQ
  have hq1 : lo ≤ getQ f ⌊y⌋ ⌊x⌋ ∧ getQ f ⌊y⌋ ⌊x⌋ ≤ hi := by
    unfold getQ
    rw [dif_pos ⟨hylo, by omega, hxlo, by omega⟩]
    exact hf _ _
  have hdxP : x - (⌊x⌋ : ℚ) = 0 ∨ ⌊x⌋ < (c : ℤ) - 1 := by
    rcases lt_or_eq_of_le hxhi with hlt | heq
    · exact Or.inr hlt
    · refine Or.inl ?_
      have hxeq : (⌊x⌋ : ℚ) = (c : ℚ) - 1 := by
        rw [heq]
        push_cast
        ring
      linarith
  have hdyP : y - (⌊y⌋ : ℚ) = 0 ∨ ⌊y⌋ < (r : ℤ) - 1 := by
    rcases lt_or_eq_of_le hyhi with hlt | heq
    · exact Or.inr hlt
    · refine Or.inl ?_
      have hyeq : (⌊y⌋ : ℚ) = (r : ℚ) - 1 := by
        rw [heq]
        push_cast
        ring
      linarith
  have hdx : x - (⌊x⌋ : ℚ) = 0 ∨
      (lo ≤ getQ f ⌊y⌋ (⌊x⌋ + 1) ∧ getQ f ⌊y⌋ (⌊x⌋ + 1) ≤ hi) := by
    rcases hdxP with h' | hlt
    · exact Or.inl h'
    · refine Or.inr ?_
      unfold getQ
      rw [dif_pos ⟨hylo, by omega, by omega, by omega⟩]
      exact hf _ _
  have hdy : y - (⌊y⌋ : ℚ) = 0 ∨
      (lo ≤ getQ f (⌊y⌋ + 1) ⌊x⌋ ∧ getQ f (⌊y⌋ + 1) ⌊x⌋ ≤ hi) := by
    rcases hdyP with h' | hlt
    · exact Or.inl h'
    · refine Or.inr ?_
      unfold getQ
      rw [dif_pos ⟨by omega, by omega, hxlo, by omega⟩]
      exact hf _ _
  have hdxy : (x - (⌊x⌋ : ℚ)) * (y - (⌊y⌋ : ℚ)) = 0 ∨
      (lo ≤ getQ f (⌊y⌋ + 1) (⌊x⌋ + 1) ∧ getQ f (⌊y⌋ + 1) (⌊x⌋ + 1) ≤ hi) := by
    rcases hdxP with hx' | hltx
    · exact Or.inl (by rw [hx', zero_mul])
    · rcases hdyP with hy' | hlty
      · exact Or.inl (by rw [hy', mul_zero])
      · refine Or.inr ?_
        unfold getQ
        rw [dif_pos ⟨by omega, by omega, by omega, by omega⟩]
        exact hf _ _
  have t1 := convex_term_bound ((1 - (x - (⌊x⌋ : ℚ))) * (1 - (y - (⌊y⌋ : ℚ))))
    (getQ f ⌊y⌋ ⌊x⌋) lo hi (mul_nonneg (by linarith) (by linarith)) (Or.inr hq1)
  have t2 := convex_term_bound ((x - (⌊x⌋ : ℚ)) * (1 - (y - (⌊y⌋ : ℚ))))
    (getQ f ⌊y⌋ (⌊x⌋ + 1)) lo hi (mul_nonneg (by linarith) (by linarith))
    (by rcases hdx with h' | h'
        · exact Or.inl (by rw [h', zero_mul])
        · exact Or.inr h')
  have t3 := convex_term_bound ((1 - (x - (⌊x⌋ : ℚ))) * (y - (⌊y⌋ : ℚ)))
    (getQ f (⌊y⌋ + 1) ⌊x⌋) lo hi (mul_nonneg (by linarith) (by linarith))
    (by rcases hdy with h' | h'
        · exact Or.inl (by rw [h', mul_zero])
        · exact Or.inr h')
  have t4 := convex_term_bound ((x - (⌊x⌋ : ℚ)) * (y - (⌊y⌋ : ℚ)))
    (getQ f (⌊y⌋ + 1) (⌊x⌋ + 1)) lo hi (mul_nonneg (by linarith) (by linarith)) hdxy
  have hsumlo : (1 - (x - (⌊x⌋ : ℚ))) * (1 - (y - (⌊y⌋ : ℚ))) * lo +
      (x - (⌊x⌋ : ℚ)) * (1 - (y - (⌊y⌋ : ℚ))) * lo +
      (1 - (x - (⌊x⌋ : ℚ))) * (y - (⌊y⌋ : ℚ)) * lo +
      (x - (⌊x⌋ : ℚ)) * (y - (⌊y⌋ : ℚ)) * lo = lo := by ring
  have hsumhi : (1 - (x - (⌊x⌋ : ℚ))) * (1 - (y - (⌊y⌋ : ℚ))) * hi +
      (x - (⌊x⌋ : ℚ)) * (1 - (y - (⌊y⌋ : ℚ))) * hi +
      (1 - (x - (⌊x⌋ : ℚ))) * (y - (⌊y⌋ : ℚ)) * hi +
      (x - (⌊x⌋ : ℚ)) * (y - (⌊y⌋ : ℚ)) * hi = hi := by ring
  constructor
  · linarith [t1.1, t2.1, t3.1, t4.1]
  · linarith [t1.2, t2.2, t3.2, t4.2]

lemma advect_core_bounds {r c : Nat} (field u v : Grid r c) (dt lo hi : ℚ)
    (hf : ∀ i j, lo ≤ field i j ∧ field i j ≤ hi) (i : Fin r) (j : Fin c) :
    lo ≤ advect_field_core field u v dt i j ∧
      advect_field_core field u v dt i j ≤ hi := by
  have hc : (1 : ℚ) ≤ (c : ℚ) := by exact_mod_cast j.pos
  have hr : (1 : ℚ) ≤ (r : ℚ) := by exact_mod_cast i.pos
  unfold advect_field_core
  have hx := clipQ_bounds (((j : ℕ) : ℚ) - u i j * dt) 0 ((c : ℚ) - 1) (by linarith)
  have hy := clipQ_bounds (((i : ℕ) : ℚ) - v i j * dt) 0 ((r : ℚ) - 1) (by linarith)
  exact bilinear_bounds field lo hi hf _ _ hx.1 hx.2 hy.1 hy.2

/-- Claim C10: advection alone never amplifies intensity — if every value
of the input field lies in `[lo, hi]`, then for every velocity field (all
rationals are finite) and every `dt`, every value of the advected output
lies in `[lo, hi]`: the backward origins are clipped into the grid, and
bilinear interpolation is a convex combination of in-range input values.
In particular a field within `0..255` stays within `0..255`. -/
theorem C10_advection_preserves_range {r c : Nat} (field u v : Grid r c)
    (dt lo hi : ℚ) (hf : ∀ i j, lo ≤ field i j ∧ field i j ≤ hi)
    (g : Grid r c) (hok : advect_field false field u v dt = Except.ok g)
    (i : Fin r) (j : Fin c) : lo ≤ g i j ∧ g i j ≤ hi := by
  have hg : g = advect_field_core field u v dt := by
    unfold advect_field at hok
    rw [if_neg (by simp)] at hok
    exact (Except.ok.injEq _ _).mp hok.symm
  rw [hg]
  exact advect_core_bounds field u v dt lo hi hf i j

/-- Witness for C10: a 1×1 field at 149 with constant velocity 2 and
`dt = 7` stays within `[0, 255]`. -/
theorem C10_advection_preserves_range_witness :
    0 ≤ advect_field_core field149 gridTwo gridTwo 7 0 0 ∧
      advect_field_core field149 gridTwo gridTwo 7 0 0 ≤ 255 :=
  C10_advection_preserves_range field149 gridTwo gridTwo 7 0 255
    (by decide) _ rfl 0 0

lemma evolve_bounds {r c : Nat} (errB : Bool) (p : EvolveParams)
    (field : Grid r c) (dt : ℚ)
    (hf : ∀ i j, 0 ≤ field i j ∧ field i j ≤ 255) (i : Fin r) (j : Fin c) :
    0 ≤ apply_growth_decay_model errB p field dt i j ∧
      apply_growth_decay_model errB p field dt i j ≤ 255 := by
  cases errB with
  | true =>
    have h : apply_growth_decay_model true p field dt = field := rfl
    rw [h]
    exact hf i j
  | false =>
    unfold apply_growth_decay_model
    rw [if_neg (by simp)]
    exact clipQ_bounds _ 0 255 (by norm_num)

lemma forecastLoop_range {r c : Nat} (uAvg vAvg : Grid r c) (p : EvolveParams)
    (dt : ℚ) (interval : ℤ) (advErr evErr : Nat → Bool) (t0 : ℤ) :
    ∀ (n step : Nat) (field : Grid r c),
      (∀ i j, 0 ≤ field i j ∧ field i j ≤ 255) →
      ∀ l, forecastLoop uAvg vAvg p dt interval advErr evErr t0 n step field =
        Except.ok l →
      ∀ res ∈ l, ∀ i j, 0 ≤ res.data i j ∧ res.data i j ≤ 255 := by
  intro n
  induction n with
  | zero =>
    intro step field hfield l hl res hres
    unfold forecastLoop at hl
    obtain rfl : ([] : List (ForecastResult r c)) = l := by
      exact (Except.ok.injEq _ _).mp hl
    simp at hres
  | succ n ih =>
    intro step field hfield l hl res hres i j
    unfold forecastLoop at hl
    cases hadv : advect_field (advErr step) field uAvg vAvg dt with
    | error e =>
      simp only [hadv] at hl
      exact absurd hl (by simp)
    | ok advected =>
      simp only [hadv] at hl
      have hadvb : ∀ a b, 0 ≤ advected a b ∧ advected a b ≤ 255 := by
        unfold advect_field at hadv
        cases hoe : advErr step with
        | true =>
          rw [hoe] at hadv
          simp at hadv
        | false =>
          rw [hoe] at hadv
          rw [if_neg (by simp)] at hadv
          obtain rfl : advect_field_core field uAvg vAvg dt = advected :=
            (Except.ok.injEq _ _).mp hadv
          exact advect_core_bounds field uAvg vAvg dt 0 255 hfield
      have hevb : ∀ a b,
          0 ≤ apply_growth_decay_model (evErr step) p advected dt a b ∧
            apply_growth_decay_model (evErr step) p advected dt a b ≤ 255 :=
        fun a b => evolve_bounds (evErr step) p advected dt hadvb a b
      cases hrec : forecastLoop uAvg vAvg p dt interval advErr evErr t0 n (step + 1)
          (apply_growth_decay_model (evErr step) p advected dt) with
      | error e =>
        simp only [hrec] at hl
        exact absurd hl (by simp)
      | ok rest =>
        simp only [hrec, Except.ok.injEq] at hl
        subst hl
        rcases List.mem_cons.mp hres with heq | hmem
        · subst heq
          constructor
          · exact Int.le_floor.mpr (by exact_mod_cast (hevb i j).1)
          · have h1 : (⌊apply_growth_decay_model (evErr step) p advected dt i j⌋ : ℚ) ≤ 255 :=
              le_trans (Int.floor_le _) (hevb i j).2
            exact_mod_cast h1
        · exact ih (step + 1) (apply_growth_decay_model (evErr step) p advected dt)
            hevb rest hrec res hmem i j

/-- Claim C1: for every valid input buffer (equal shapes are enforced by
the grid types; all values in `0..255`) and any growth/decay parameters,
every grid value of every `ForecastResult` returned by `generate_forecast`
lies in `0..255` — each step either clamps (evolution ran) or preserves the
advected range (evolution soft-failed), and advection preserves range. -/
theorem C1_forecast_grid_range {r c : Nat}
    (est : RadarFrame r c → RadarFrame r c → Except RadarError (Grid r c × Grid r c))
    (advErr evErr : Nat → Bool) (p : EvolveParams) (steps interval : Nat)
    (frames : List (RadarFrame r c))
    (hdata : ∀ fr ∈ frames, ∀ i j, 0 ≤ fr.data i j ∧ fr.data i j ≤ 255)
    (l : List (ForecastResult r c))
    (hok : generate_forecast est advErr evErr p steps interval frames = Except.ok l) :
    ∀ res ∈ l, ∀ i j, 0 ≤ res.data i j ∧ res.data i j ≤ 255 := by
  unfold generate_forecast at hok
  by_cases h3 : frames.length < 3
  · rw [if_pos h3] at hok
    simp at hok
  · rw [if_neg h3] at hok
    cases hcav : calculate_average_velocity est
        (frames.drop (frames.length - min 10 frames.length)) with
    | error e =>
      simp only [hcav, Except.mapError] at hok
      exact absurd hok (by simp)
    | ok uv =>
      obtain ⟨uAvg, vAvg⟩ := uv
      cases hlast : (frames.drop (frames.length - min 10 frames.length)).getLast? with
      | none =>
        simp only [hcav, hlast, Except.mapError] at hok
        exact absurd hok (by simp)
      | some lastF =>
        have hmem : lastF ∈ frames :=
          List.drop_subset _ _ (List.mem_of_getLast?_eq_some hlast)
        cases hloop : forecastLoop uAvg vAvg p ((interval : ℚ) * 60) (interval : ℤ)
            advErr evErr lastF.timestamp steps 1 lastF.data with
        | error e =>
          simp only [hcav, hlast, hloop, Except.mapError] at hok
          exact absurd hok (by simp)
        | ok l2 =>
          simp only [hcav, hlast, hloop, Except.mapError] at hok
          obtain rfl : l2 = l := by
            exact (Except.ok.injEq _ _).mp hok
          exact forecastLoop_range uAvg vAvg p ((interval : ℚ) * 60) (interval : ℤ)
            advErr evErr lastF.timestamp steps 1 lastF.data
            (hdata lastF hmem) l2 hloop

set_option maxRecDepth 100000 in
/-- Witness for C1: the run on three zero frames succeeds and the first
result's single grid value is within `0..255`. -/
theorem C1_forecast_grid_range_witness :
    0 ≤ resZ3head.data 0 0 ∧ resZ3head.data 0 0 ≤ 255 :=
  C1_forecast_grid_range estZero oracleFalse oracleFalse paramsW 6 10
    (zeroFrames 3) (by decide) resultsZero3 (by decide) resZ3head (by decide) 0 0

lemma forecastLoop_spec {r c : Nat} (uAvg vAvg : Grid r c) (p : EvolveParams)
    (dt : ℚ) (interval : ℤ) (advErr evErr : Nat → Bool) (t0 : ℤ) :
    ∀ (n step : Nat) (field : Grid r c) (l : List (ForecastResult r c)),
      forecastLoop uAvg vAvg p dt interval advErr evErr t0 n step field =
        Except.ok l →
      l.length = n ∧
      ∀ (k : Nat) (hk : k < l.length),
        (l.get ⟨k, hk⟩).timestamp = t0 + ((step : ℤ) + (k : ℤ)) * interval ∧
        (l.get ⟨k, hk⟩).confidence =
          max (1 / 10) (1 - ((step : ℚ) + (k : ℚ)) * (3 / 20)) := by
  intro n
  induction n with
  | zero =>
    intro step field l hl
    unfold forecastLoop at hl
    obtain rfl : ([] : List (ForecastResult r c)) = l :=
      (Except.ok.injEq _ _).mp hl
    exact ⟨rfl, fun k hk => absurd hk (by simp)⟩
  | succ n ih =>
    intro step field l hl
    unfold forecastLoop at hl
    cases hadv : advect_field (advErr step) field uAvg vAvg dt with
    | error e =>
      simp only [hadv] at hl
      exact absurd hl (by simp)
    | ok advected =>
      simp only [hadv] at hl
      cases hrec : forecastLoop uAvg vAvg p dt interval advErr evErr t0 n (step + 1)
          (apply_growth_decay_model (evErr step) p advected dt) with
      | error e =>
        simp only [hrec] at hl
        exact absurd hl (by simp)
      | ok rest =>
        simp only [hrec, Except.ok.injEq] at hl
        subst hl
        obtain ⟨ihlen, ihspec⟩ :=
          ih (step + 1) (apply_growth_decay_model (evErr step) p advected dt) rest hrec
        refine ⟨by simp [ihlen], ?_⟩
        intro k hk
        cases k with
        | zero =>
          constructor
          · show t0 + (step : ℤ) * interval = _
            push_cast
            ring
          · show max (1 / 10) (1 - (step : ℚ) * (3 / 20)) = _
            push_cast
            ring_nf
        | succ k =>
          have hk' : k < rest.length := by
            simp at hk
            omega
          obtain ⟨hts, hcf⟩ := ihspec k hk'
          constructor
          · show (rest.get ⟨k, hk'⟩).timestamp = _
            rw [hts]
            push_cast
            ring
          · show (rest.get ⟨k, hk'⟩).confidence = _
            rw [hcf]
            push_cast
            ring_nf

/-- Claim C2: on a well-formed buffer of 10 frames, `generate_forecast`
with the default 6 steps and 10-minute interval returns exactly 6 results;
the k-th result's timestamp is the last input frame's timestamp plus
`(k+1)*10` minutes (0-based k), so timestamps are strictly increasing,
spaced 10 minutes apart, and all strictly after the last input frame. -/
theorem C2_six_steps_ten_minutes {r c : Nat}
    (est : RadarFrame r c → RadarFrame r c → Except RadarError (Grid r c × Grid r c))
    (advErr evErr : Nat → Bool) (p : EvolveParams)
    (frames : List (RadarFrame r c)) (lastF : RadarFrame r c)
    (hlen : frames.length = 10) (hlast : frames.getLast? = some lastF)
    (l : List (ForecastResult r c))
    (hok : generate_forecast est advErr evErr p forecast_steps
      forecast_interval_minutes frames = Except.ok l) :
    l.length = 6 ∧
    (∀ (k : Nat) (hk : k < l.length),
      (l.get ⟨k, hk⟩).timestamp = lastF.timestamp + ((k : ℤ) + 1) * 10 ∧
      lastF.timestamp < (l.get ⟨k, hk⟩).timestamp) ∧
    (∀ (k : Nat) (hk : k < l.length) (hk1 : k + 1 < l.length),
      (l.get ⟨k + 1, hk1⟩).timestamp = (l.get ⟨k, hk⟩).timestamp + 10 ∧
      (l.get ⟨k, hk⟩).timestamp < (l.get ⟨k + 1, hk1⟩).timestamp) := by
  unfold generate_forecast at hok
  rw [if_neg (by omega)] at hok
  have hdrop : frames.drop (frames.length - min 10 frames.length) = frames := by
    rw [hlen]
    norm_num
  rw [hdrop] at hok
  cases hcav : calculate_average_velocity est frames with
  | error e =>
    simp only [hcav, Except.mapError] at hok
    exact absurd hok (by simp)
  | ok uv =>
    obtain ⟨uAvg, vAvg⟩ := uv
    cases hloop : forecastLoop uAvg vAvg p ((forecast_interval_minutes : ℚ) * 60)
        (forecast_interval_minutes : ℤ) advErr evErr lastF.timestamp forecast_steps
        1 lastF.data with
    | error e =>
      simp only [hcav, hlast, hloop, Except.mapError] at hok
      exact absurd hok (by simp)
    | ok l2 =>
      simp only [hcav, hlast, hloop, Except.mapError, Except.ok.injEq] at hok
      subst hok
      obtain ⟨hlenl, hspec⟩ := forecastLoop_spec uAvg vAvg p
        ((forecast_interval_minutes : ℚ) * 60) (forecast_interval_minutes : ℤ)
        advErr evErr lastF.timestamp forecast_steps 1 lastF.data l2 hloop
      have hint : (forecast_interval_minutes : ℤ) = 10 := rfl
      refine ⟨hlenl, ?_, ?_⟩
      · intro k hk
        obtain ⟨hts, -⟩ := hspec k hk
        rw [hts, hint]
        constructor
        · push_cast
          ring
        · have h0 : (0 : ℤ) ≤ (k : ℤ) := Int.natCast_nonneg k
          push_cast
          nlinarith
      · intro k hk hk1
        obtain ⟨hts, -⟩ := hspec k hk
        obtain ⟨hts1, -⟩ := hspec (k + 1) hk1
        rw [hts, hts1, hint]
        constructor
        · push_cast
          ring
        · have h0 : (0 : ℤ) ≤ (k : ℤ) := Int.natCast_nonneg k
          push_cast
          nlinarith

set_option maxRecDepth 400000 in
/-- Witness for C2: ten zero frames, last timestamp 9, produce exactly
the six results at 19, 29, 39, 49, 59, 69 minutes. -/
theorem C2_six_steps_ten_minutes_witness :
    resultsZero10.length = 6 ∧
    (∀ (k : Nat) (hk : k < resultsZero10.length),
      (resultsZero10.get ⟨k, hk⟩).timestamp = (9 : ℤ) + ((k : ℤ) + 1) * 10 ∧
      (9 : ℤ) < (resultsZero10.get ⟨k, hk⟩).timestamp) ∧
    (∀ (k : Nat) (hk : k < resultsZero10.length) (hk1 : k + 1 < resultsZero10.length),
      (resultsZero10.get ⟨k + 1, hk1⟩).timestamp =
        (resultsZero10.get ⟨k, hk⟩).timestamp + 10 ∧
      (resultsZero10.get ⟨k, hk⟩).timestamp <
        (resultsZero10.get ⟨k + 1, hk1⟩).timestamp) :=
  C2_six_steps_ten_minutes estZero oracleFalse oracleFalse paramsW
    (zeroFrames 10) ⟨9, zeroGrid⟩ (by decide) (by decide) resultsZero10 (by decide)

/-- Claim C3: the confidence of the k-th forecast step (1-based step
`k+1`) equals `max(0.1, 1 - 0.15*(k+1))`; consequently confidence is
non-increasing across consecutive steps, never drops below the floor 0.1,
and always lies in `(0, 1]`. -/
theorem C3_confidence_decay {r c : Nat}
    (est : RadarFrame r c → RadarFrame r c → Except RadarError (Grid r c × Grid r c))
    (advErr evErr : Nat → Bool) (p : EvolveParams) (steps interval : Nat)
    (frames : List (RadarFrame r c)) (l : List (ForecastResult r c))
    (hok : generate_forecast est advErr evErr p steps interval frames = Except.ok l) :
    ∀ (k : Nat) (hk : k < l.length),
      (l.get ⟨k, hk⟩).confidence = max (1 / 10) (1 - ((k : ℚ) + 1) * (3 / 20)) ∧
      1 / 10 ≤ (l.get ⟨k, hk⟩).confidence ∧
      0 < (l.get ⟨k, hk⟩).confidence ∧
      (l.get ⟨k, hk⟩).confidence ≤ 1 ∧
      ∀ (hk1 : k + 1 < l.length),
        (l.get ⟨k + 1, hk1⟩).confidence ≤ (l.get ⟨k, hk⟩).confidence := by
  unfold generate_forecast at hok
  by_cases h3 : frames.length < 3
  · rw [if_pos h3] at hok
    exact absurd hok (by simp)
  · rw [if_neg h3] at hok
    cases hcav : calculate_average_velocity est
        (frames.drop (frames.length - min 10 frames.length)) with
    | error e =>
      simp only [hcav, Except.mapError] at hok
      exact absurd hok (by simp)
    | ok uv =>
      obtain ⟨uAvg, vAvg⟩ := uv
      cases hlast : (frames.drop (frames.length - min 10 frames.length)).getLast? with
      | none =>
        simp only [hcav, hlast, Except.mapError] at hok
        exact absurd hok (by simp)
      | some lastF =>
        cases hloop : forecastLoop uAvg vAvg p ((interval : ℚ) * 60) (interval : ℤ)
            advErr evErr lastF.timestamp steps 1 lastF.data with
        | error e =>
          simp only [hcav, hlast, hloop, Except.mapError] at hok
          exact absurd hok (by simp)
        | ok l2 =>
          simp only [hcav, hlast, hloop, Except.mapError, Except.ok.injEq] at hok
          subst hok
          obtain ⟨-, hspec⟩ := forecastLoop_spec uAvg vAvg p ((interval : ℚ) * 60)
            (interval : ℤ) advErr evErr lastF.timestamp steps 1 lastF.data l2 hloop
          intro k hk
          obtain ⟨-, hcf⟩ := hspec k hk
          have hk0 : (0 : ℚ) ≤ (k : ℚ) := Nat.cast_nonneg k
          have hcf' : (l2.get ⟨k, hk⟩).confidence =
              max (1 / 10) (1 - ((k : ℚ) + 1) * (3 / 20)) := by
            rw [hcf]
            ring_nf
          refine ⟨hcf', ?_, ?_, ?_, ?_⟩
          · rw [hcf']
            exact le_max_left _ _
          · rw [hcf']
            exact lt_of_lt_of_le (by norm_num) (le_max_left _ _)
          · rw [hcf']
            refine max_le (by norm_num) (by nlinarith)
          · intro hk1
            obtain ⟨-, hcf1⟩ := hspec (k + 1) hk1
            rw [hcf', hcf1]
            refine max_le_max le_rfl ?_
            push_cast
            linarith

set_option maxRecDepth 100000 in
/-- Witness for C3 on the three-zero-frame run, at the first step: its
confidence is 17/20 = max(0.1, 1 - 0.15), within (0, 1] and above the
floor, and the second step's confidence 7/10 does not exceed it. -/
theorem C3_confidence_decay_witness :
    (resultsZero3.get ⟨0, by decide⟩).confidence =
      max (1 / 10) (1 - ((0 : ℚ) + 1) * (3 / 20)) ∧
    1 / 10 ≤ (resultsZero3.get ⟨0, by decide⟩).confidence ∧
    0 < (resultsZero3.get ⟨0, by decide⟩).confidence ∧
    (resultsZero3.get ⟨0, by decide⟩).confidence ≤ 1 ∧
    (resultsZero3.get ⟨0 + 1, by decide⟩).confidence ≤
      (resultsZero3.get ⟨0, by decide⟩).confidence := by
  obtain ⟨h1, h2, h3, h4, h5⟩ := C3_confidence_decay estZero oracleFalse oracleFalse
    paramsW 6 10 (zeroFrames 3) resultsZero3 (by decide) 0 (by decide)
  exact ⟨h1, h2, h3, h4, h5 (by decide)⟩

lemma avgVelLoop_some {r c : Nat}
    (est : RadarFrame r c → RadarFrame r c → Except RadarError (Grid r c × Grid r c)) :
    ∀ (ps : List (RadarFrame r c × RadarFrame r c)) (us vs : Grid r c) (k : Nat),
      avgVelLoop est ps (some (us, vs, k)) =
        some (fun i j => us i j + sumU (successes est ps) i j,
              fun i j => vs i j + sumV (successes est ps) i j,
              k + (successes est ps).length) := by
  intro ps
  induction ps with
  | nil =>
    intro us vs k
    simp only [avgVelLoop, successes, List.filterMap_nil, List.length_nil]
    refine congrArg some ?_
    simp only [Prod.mk.injEq]
    refine ⟨?_, ?_, by omega⟩
    · funext a b
      simp [sumU]
    · funext a b
      simp [sumV]
  | cons pr rest ih =>
    intro us vs k
    unfold avgVelLoop
    cases hp : est pr.1 pr.2 with
    | error e =>
      simp only [hp]
      rw [ih]
      have hs : successes est (pr :: rest) = successes est rest := by
        simp [successes, List.filterMap_cons, hp, Except.toOption]
      rw [hs]
    | ok uv =>
      obtain ⟨u, v⟩ := uv
      simp only [hp]
      rw [ih]
      have hs : successes est (pr :: rest) = (u, v) :: successes est rest := by
        simp [successes, List.filterMap_cons, hp, Except.toOption]
      rw [hs]
      refine congrArg some ?_
      simp only [Prod.mk.injEq]
      refine ⟨?_, ?_, ?_⟩
      · funext a b
        simp [sumU]
        ring
      · funext a b
        simp [sumV]
        ring
      · simp [List.length_cons]
        omega

lemma avgVelLoop_none {r c : Nat}
    (est : RadarFrame r c → RadarFrame r c → Except RadarError (Grid r c × Grid r c)) :
    ∀ (ps : List (RadarFrame r c × RadarFrame r c)),
      avgVelLoop est ps none =
        match successes est ps with
        | [] => none
        | (u, v) :: rest =>
          some (fun i j => u i j + sumU rest i j,
                fun i j => v i j + sumV rest i j, 1 + rest.length) := by
  intro ps
  induction ps with
  | nil =>
    simp [avgVelLoop, successes]
  | cons pr rest ih =>
    unfold avgVelLoop
    cases hp : est pr.1 pr.2 with
    | error e =>
      simp only [hp]
      rw [ih]
      have hs : successes est (pr :: rest) = successes est rest := by
        simp [successes, List.filterMap_cons, hp, Except.toOption]
      rw [hs]
    | ok uv =>
      obtain ⟨u, v⟩ := uv
      simp only [hp]
      rw [avgVelLoop_some est rest u v 1]
      have hs : successes est (pr :: rest) = (u, v) :: successes est rest := by
        simp [successes, List.filterMap_cons, hp, Except.toOption]
      rw [hs]

/-- Claim C5: given at least 2 frames, the velocity aggregator returns
the element-wise mean over exactly those consecutive pairs whose motion
estimation succeeds (sums of u and v divided by the successful-pair
count); raising pairs are skipped without failing the call; and when zero
pairs succeed it raises the insufficient-data error "No valid frame
pairs" rather than returning a zero field. -/
theorem C5_aggregator_mean {r c : Nat}
    (est : RadarFrame r c → RadarFrame r c → Except RadarError (Grid r c × Grid r c))
    (frames : List (RadarFrame r c)) (h2 : 2 ≤ frames.length) :
    (successfulPairs est frames = [] →
      calculate_average_velocity est frames = Except.error RadarError.noValidPairs ∧
      RadarError.noValidPairs.isInsufficientData = true) ∧
    (successfulPairs est frames ≠ [] →
      calculate_average_velocity est frames =
        Except.ok (meanOf (successfulPairs est frames))) := by
  unfold calculate_average_velocity
  rw [if_neg (by omega)]
  have hsp : successfulPairs est frames = successes est (frames.zip frames.tail) := rfl
  constructor
  · intro hnil
    rw [avgVelLoop_none]
    rw [hsp] at hnil
    rw [hnil]
    exact ⟨rfl, rfl⟩
  · intro hne
    rw [avgVelLoop_none]
    cases hsucc : successes est (frames.zip frames.tail) with
    | nil => exact absurd (hsp.trans hsucc) hne
    | cons g rest =>
      obtain ⟨u, v⟩ := g
      rw [hsp, hsucc]
      refine congrArg Except.ok ?_
      simp only [meanOf, Prod.mk.injEq]
      constructor
      · funext a b
        simp only [sumU, List.map_cons, List.sum_cons, List.length_cons]
        rw [Nat.add_comm 1 rest.length]
      · funext a b
        simp only [sumV, List.map_cons, List.sum_cons, List.length_cons]
        rw [Nat.add_comm 1 rest.length]

/-- Witness for C5: three frames where the first pair's estimation fails
and the second succeeds with the constant field (2, 4) — the mean is that
single successful field and the call succeeds. -/
theorem C5_aggregator_mean_witness :
    successfulPairs estMixed (zeroFrames 3) ≠ [] ∧
    calculate_average_velocity estMixed (zeroFrames 3) =
      Except.ok (meanOf (successfulPairs estMixed (zeroFrames 3))) :=
  ⟨by decide,
   (C5_aggregator_mean estMixed (zeroFrames 3) (by decide)).2 (by decide)⟩

/-- Claim C6 as amended: the three scalings are applied in order — growth,
then decay on the value produced by the growth step, then the global
exponential decay on the whole current field — and clamping to `0..255`
comes last; but the growth and decay membership tests are evaluated on the
input snapshot, so the fully sequential current-state reading of the model
(`evolveSequentialSpec`) agrees with the code exactly when growth cannot
push a cell past the very-high threshold 180 (with the default rates this
holds whenever `dt ≤ 14400` seconds, in particular for the sequencer's
600-second steps). -/
theorem C6_evolution_order_amended {r c : Nat} (p : EvolveParams)
    (field : Grid r c) (dt : ℚ)
    (hcross : ∀ i j, 80 < field i j → field i j < 150 →
      field i j * (1 + p.growthRate * dt / 3600) ≤ 180) :
    apply_growth_decay_model false p field dt = evolveSequentialSpec p field dt := by
  funext i j
  have hng : ¬ ((false : Bool) = true) := by simp
  simp only [apply_growth_decay_model, evolveSequentialSpec,
    apply_precipitation_decay, if_neg hng]
  by_cases h1 : 80 < field i j ∧ field i j < 150
  · have h2 : ¬ 180 < field i j := by
      rcases h1 with ⟨-, hlt⟩
      intro hgt
      linarith
    have h3 : ¬ 180 < field i j * (1 + p.growthRate * dt / 3600) := by
      intro hgt
      exact absurd hgt (not_lt.mpr (hcross i j h1.1 h1.2))
    simp only [if_pos h1, if_neg h2, if_neg h3]
  · by_cases h2 : 180 < field i j
    · simp only [if_neg h1, if_pos h2]
    · simp only [if_neg h1, if_neg h2]

/-- Counterexample to C6 as stated: at the single-cell field 149 with
`dt = 72000` s (default rates, expFactor 1/8) the code grows the cell to
298 but — because the decay mask was computed on the input snapshot, where
149 is not above 180 — never applies targeted decay to it, while the
current-state sequential reading would; the two disagree (code yields
149/4, the sequential reading clamps to 0). -/
theorem C6_evolution_order_counterexample :
    apply_growth_decay_model false paramsW field149 72000 ≠
      evolveSequentialSpec paramsW field149 72000 := by decide

/-- Witness for the amended C6 at the sequencer's own step size
`dt = 600` s, where the no-crossing hypothesis holds. -/
theorem C6_evolution_order_amended_witness :
    (∀ (i : Fin 1) (j : Fin 1), 80 < field149 i j → field149 i j < 150 →
      field149 i j * (1 + paramsW.growthRate * 600 / 3600) ≤ 180) ∧
    apply_growth_decay_model false paramsW field149 600 =
      evolveSequentialSpec paramsW field149 600 :=
  ⟨by decide, C6_evolution_order_amended paramsW field149 600 (by decide)⟩

/-- Claim C9, evaluated at the failing input: on a 1×15 frame (column
count not a multiple of 10) the anchor grid is `[(0,0), (10,0)]`; with the
tracker reporting positions `(2,3)` and `(12,13)` the second anchor's
displacement `(2, 3)` should, per the claim, be written at cell
`(row 0, col 10)` — but the write-back reconstructs anchor `i = 1` with
`divmod(1, 15 // 10) = (1, 0)`, i.e. cell `(10, 0)`, which is out of
bounds, so the displacement is silently dropped and `u`, `v` stay 0
there. -/
theorem C9_flow_writeback_eval :
    anchors 1 15 = [(0, 0), (10, 0)] ∧
    flow_uv 1 15 (some [(2, 3), (12, 13)]) = Except.ok (uFlow115, vFlow115) ∧
    uFlow115 0 ⟨10, by omega⟩ = 0 ∧ vFlow115 0 ⟨10, by omega⟩ = 0 ∧
    uFlow115 0 ⟨10, by omega⟩ ≠ 12 - 10 ∧ vFlow115 0 ⟨10, by omega⟩ ≠ 13 - 0 := by
  exact ⟨by decide, by decide, by decide, by decide, by decide, by decide⟩
